import Mathlib

/-!
# Verification of the Yarotech sales-management application

A shallow embedding, in Lean 4, of the parts of the Yarotech repository that
the specification talks about: the sales form item list and submission logic
(`src/components/Sales/SalesForm.tsx`), the reports filtering
(`src/components/Reports/ReportsPage.tsx`), the invoice PDF generators
(`src/utils/invoiceGenerator.ts` and the second implementation), and the
database migrations (row-level-security policies and audit triggers).

JavaScript numbers are modelled as rationals (`Rat`); JavaScript
`Date` parsing is modelled by an arbitrary parse function passed as a
parameter; database rows are records and tables are lists of rows.
-/

namespace JsString

/-- Whitespace test used by the model of JavaScript `String.prototype.trim`. -/
def isWs (c : Char) : Bool :=
  c == ' ' || c == '\t' || c == '\n' || c == '\r'

/-- Trim whitespace from both ends of a character list. -/
def trimChars (l : List Char) : List Char :=
  ((l.dropWhile isWs).reverse.dropWhile isWs).reverse

/-- Model of JavaScript `s.trim()`. -/
def jsTrim (s : String) : String := ⟨trimChars s.data⟩

/-- Test `startsWithChars pre l` is true when `pre` is an initial segment of `l`. -/
def startsWithChars : List Char → List Char → Bool
  | [], _ => true
  | _ :: _, [] => false
  | a :: as, b :: bs => a == b && startsWithChars as bs

/-- Test `containsChars needle hay`: model of JavaScript `hay.includes(needle)`. -/
def containsChars (needle : List Char) : List Char → Bool
  | [] => needle.isEmpty
  | c :: rest => startsWithChars needle (c :: rest) || containsChars needle rest

/-- Model of JavaScript `hay.includes(needle)`. -/
def jsIncludes (hay needle : String) : Bool :=
  containsChars needle.data hay.data

/-- ASCII lower-casing of one character, the fragment of
`String.prototype.toLowerCase` this code base relies on. -/
def charLower (c : Char) : Char :=
  if 'A' ≤ c && c ≤ 'Z' then Char.ofNat (c.toNat + 32) else c

/-- ASCII upper-casing of one character, the fragment of
`String.prototype.toUpperCase` this code base relies on. -/
def charUpper (c : Char) : Char :=
  if 'a' ≤ c && c ≤ 'z' then Char.ofNat (c.toNat - 32) else c

/-- Model of JavaScript `s.toLowerCase()`. -/
def jsToLower (s : String) : String := ⟨s.data.map charLower⟩

/-- Model of JavaScript `s.toUpperCase()`. -/
def jsToUpper (s : String) : String := ⟨s.data.map charUpper⟩

/-- Model of JavaScript `s.slice(start, stop)` for non-negative indices:
both indices are clamped to the length and the characters in between are
kept. -/
def jsSlice (s : String) (start stop : Nat) : String :=
  ⟨(s.data.take (min stop s.data.length)).drop (min start s.data.length)⟩

/-- Model of JavaScript `s.substring(start, stop)` for non-negative indices:
indices are clamped to the length and swapped when out of order. -/
def jsSubstring (s : String) (start stop : Nat) : String :=
  let a := min start s.data.length
  let b := min stop s.data.length
  ⟨(s.data.take (max a b)).drop (min a b)⟩

end JsString

namespace SalesForm

open JsString

/-- The `SaleItem` interface of `SalesForm.tsx`. -/
structure SaleItem where
  product_id : String
  product_name : String
  quantity : Rat
  unit_price : Rat
  total_price : Rat
deriving Repr, DecidableEq

/-- The `Product` interface of `SalesForm.tsx` (`id, name, unit_price`). -/
structure Product where
  id : String
  name : String
  unit_price : Rat
deriving Repr, DecidableEq

/-- A value passed to `updateItem` in the form code: `string | number`. -/
inductive JsValue where
  | str (s : String)
  | num (q : Rat)
deriving Repr, DecidableEq

/-- A field name of `SaleItem` (`keyof SaleItem` in the form code). -/
inductive Field where
  | product_id
  | product_name
  | quantity
  | unit_price
  | total_price
deriving Repr, DecidableEq

/-- Strict equality `p.id === value` between a product id (a string) and a
`string | number` value: only a string can be equal to a string. -/
def idEqValue (s : String) (v : JsValue) : Bool :=
  match v with
  | .str t => s == t
  | .num _ => false

/-- JavaScript `Number(value)` on a `string | number` value; the conversion
applied to a string is an arbitrary parameter `strToNum`. -/
def jsNumber (strToNum : String → Rat) : JsValue → Rat
  | .str s => strToNum s
  | .num q => q

/-- Function `addItem` of `SalesForm.tsx`: with a non-empty product list, append an
item for the first product with quantity 1 and
`total_price = firstProduct.unit_price`. -/
def addItem (products : List Product) (items : List SaleItem) : List SaleItem :=
  match products with
  | [] => items
  | firstProduct :: _ =>
      items ++ [{ product_id := firstProduct.id
                  product_name := firstProduct.name
                  quantity := 1
                  unit_price := firstProduct.unit_price
                  total_price := firstProduct.unit_price }]

/-- Function `removeItem` of `SalesForm.tsx`: `items.filter((_, i) => i !== index)`,
i.e. removal of the element at position `index`. -/
def removeItem (items : List SaleItem) (index : Nat) : List SaleItem :=
  items.eraseIdx index

/-- The body of `updateItem` acting on the selected item. -/
def updateSaleItem (products : List Product) (strToNum : String → Rat)
    (field : Field) (value : JsValue) (item : SaleItem) : SaleItem :=
  match field with
  | .product_id =>
      match products.find? (fun p => idEqValue p.id value) with
      | some product =>
          { item with product_id := product.id
                      product_name := product.name
                      unit_price := product.unit_price
                      total_price := item.quantity * product.unit_price }
      | none => item
  | .quantity =>
      let q := jsNumber strToNum value
      { item with quantity := q, total_price := q * item.unit_price }
  | .unit_price =>
      let u := jsNumber strToNum value
      { item with unit_price := u, total_price := item.quantity * u }
  | _ => item

/-- Function `updateItem` of `SalesForm.tsx`: update the item at `index` (an index
outside the list leaves the state unchanged, as the exception thrown by the
original code prevents `setItems` from running). -/
def updateItem (products : List Product) (strToNum : String → Rat)
    (items : List SaleItem) (index : Nat) (field : Field) (value : JsValue) :
    List SaleItem :=
  match items[index]? with
  | none => items
  | some item => items.set index (updateSaleItem products strToNum field value item)

/-- Function `calculateTotal` of `SalesForm.tsx`:
`items.reduce((sum, item) => sum + item.total_price, 0)`. -/
def calculateTotal (items : List SaleItem) : Rat :=
  items.foldl (fun sum item => sum + item.total_price) 0

/-- One user operation on the sales-form item list. -/
inductive FormOp where
  | add
  | remove (index : Nat)
  | update (index : Nat) (field : Field) (value : JsValue)
deriving Repr

/-- Apply one form operation to the item list. -/
def applyOp (products : List Product) (strToNum : String → Rat)
    (items : List SaleItem) : FormOp → List SaleItem
  | .add => addItem products items
  | .remove index => removeItem items index
  | .update index field value => updateItem products strToNum items index field value

/-- Apply a sequence of form operations, starting from a given item list. -/
def applyOps (products : List Product) (strToNum : String → Rat)
    (items : List SaleItem) (ops : List FormOp) : List SaleItem :=
  ops.foldl (applyOp products strToNum) items

/-- The line-item invariant: the stored total is quantity times unit price. -/
def itemInv (item : SaleItem) : Prop :=
  item.total_price = item.quantity * item.unit_price

instance : DecidablePred itemInv := fun item =>
  inferInstanceAs (Decidable (item.total_price = item.quantity * item.unit_price))

/-- A row of the `sales` table, as inserted by `handleSubmit`. -/
structure SaleRow where
  id : String
  customer_name : String
  issuer_id : Option String
  issuer_name : String
  total_amount : Rat
  status : String
deriving Repr, DecidableEq

/-- A row of the `sale_items` table, as inserted by `handleSubmit`. -/
structure SaleItemRow where
  sale_id : String
  product_id : String
  product_name : String
  quantity : Rat
  unit_price : Rat
  total_price : Rat
deriving Repr, DecidableEq

/-- The two tables `handleSubmit` writes to. -/
structure Db where
  sales : List SaleRow
  sale_items : List SaleItemRow
deriving Repr, DecidableEq

/-- The component state `handleSubmit` reads and writes:
`customerName`, `items`, `error`, `issuerName`. -/
structure FormState where
  customerName : String
  items : List SaleItem
  error : String
  issuerName : String
deriving Repr, DecidableEq

/-- The observable outcome of one run of `handleSubmit`. -/
structure SubmitResult where
  form : FormState
  db : Db
  /-- the argument of the `onSaleCreated` callback, when it was called -/
  created : Option String
deriving Repr, DecidableEq

/-- Function `handleSubmit` of `SalesForm.tsx`.  The backend is modelled by the id
`newSaleId` the database would assign to the inserted sales row and by two
flags saying whether the `sales` insert and the `sale_items` insert fail;
a thrown error is caught by the `catch` block, which sets the error message
and leaves everything else as it is. -/
def handleSubmit (userId : Option String) (newSaleId : String)
    (salesInsertFails itemsInsertFails : Bool)
    (form : FormState) (db : Db) : SubmitResult :=
  let form0 := { form with error := "" }
  if jsTrim form0.customerName = "" then
    { form := { form0 with error := "Customer name is required" }, db := db, created := none }
  else if form0.items.length = 0 then
    { form := { form0 with error := "Add at least one item" }, db := db, created := none }
  else
    let totalAmount := calculateTotal form0.items
    if salesInsertFails then
      { form := { form0 with error := "Failed to create sale. Please try again." }
        db := db, created := none }
    else
      let saleRow : SaleRow :=
        { id := newSaleId
          customer_name := form0.customerName
          issuer_id := userId
          issuer_name := form0.issuerName
          total_amount := totalAmount
          status := "completed" }
      let db1 : Db := { db with sales := db.sales ++ [saleRow] }
      if itemsInsertFails then
        { form := { form0 with error := "Failed to create sale. Please try again." }
          db := db1, created := none }
      else
        let saleItems : List SaleItemRow := form0.items.map (fun item =>
          { sale_id := newSaleId
            product_id := item.product_id
            product_name := item.product_name
            quantity := item.quantity
            unit_price := item.unit_price
            total_price := item.total_price })
        let db2 : Db := { db1 with sale_items := db1.sale_items ++ saleItems }
        { form := { form0 with customerName := "", items := [] }
          db := db2, created := some newSaleId }

end SalesForm

namespace Rls

/-- A row of the `profiles` table (`id` references `auth.users`, `role` is
text, default `'staff'`). -/
structure Profile where
  id : String
  role : String
deriving Repr, DecidableEq

/-- A row of the `sales` table, as seen by the row-level-security policies
(the policies only mention `issuer_id`). -/
structure SaleRow where
  id : String
  issuer_id : Option String
  customer_name : String
  issuer_name : String
  total_amount : Rat
deriving Repr, DecidableEq

/-- The database context a policy's `USING` clause can consult: the
`profiles` table and the list of `sales` rows. -/
structure Db where
  profiles : List Profile
  sales : List SaleRow
deriving Repr

/-- The SQL command a policy is attached to (`FOR SELECT` etc.). -/
inductive SqlOp where
  | select
  | insert
  | update
  | delete
deriving Repr, DecidableEq

/-- The subquery
`EXISTS (SELECT 1 FROM profiles WHERE profiles.id = auth.uid() AND profiles.role = 'admin')`
evaluated with `auth.uid() = uid`. -/
def existsProfileWithRole (db : Db) (uid : String) (role : String) : Bool :=
  db.profiles.any (fun p => p.id == uid && p.role == role)

/-- A policy on a table whose rows have type `ρ`: its name, the command it
is for, and its `USING`/`WITH CHECK` predicate over the database context,
`auth.uid()`, and the row. -/
structure Policy (ρ : Type) where
  name : String
  cmd : SqlOp
  pred : Db → String → ρ → Bool

/-- A row of the `products` table as seen by the policies (none of the
products policies reads the row, so the row is kept abstract). -/
structure ProductRow where
  id : String
deriving Repr, DecidableEq

/-- The policies on `products` after the second migration
(`20251014040105...`), which drops the four original policies and
recreates them. -/
def productsPolicies : List (Policy ProductRow) :=
  [ { name := "All authenticated users can view products"
      cmd := .select
      pred := fun _ _ _ => true }
  , { name := "Only admins can create products"
      cmd := .insert
      pred := fun db uid _ => existsProfileWithRole db uid "admin" }
  , { name := "Only admins can update products"
      cmd := .update
      pred := fun db uid _ => existsProfileWithRole db uid "admin" }
  , { name := "Only admins can delete products"
      cmd := .delete
      pred := fun db uid _ => existsProfileWithRole db uid "admin" } ]

/-- The `SELECT` policies on `sales` after the second migration: the
original `"Users can view all sales"` is dropped and the admin/staff pair
is created. -/
def salesSelectPolicies : List (Policy SaleRow) :=
  [ { name := "Admins can view all sales"
      cmd := .select
      pred := fun db uid _ => existsProfileWithRole db uid "admin" }
  , { name := "Staff can view own sales"
      cmd := .select
      pred := fun db uid row =>
        (row.issuer_id == some uid) && existsProfileWithRole db uid "staff" } ]

/-- A row of the `audit_logs` table as seen by the policies (none of the
audit policies reads the row). -/
structure AuditRow where
  id : String
deriving Repr, DecidableEq

/-- The policies on `audit_logs`: an admin-only `SELECT` and an
unconditional `INSERT`; no `UPDATE` or `DELETE` policy exists. -/
def auditLogsPolicies : List (Policy AuditRow) :=
  [ { name := "Admins can view all audit logs"
      cmd := .select
      pred := fun db uid _ => existsProfileWithRole db uid "admin" }
  , { name := "System can insert audit logs"
      cmd := .insert
      pred := fun _ _ _ => true } ]

/-- Permissive row-level security: an operation on a row is allowed when at
least one policy for that command accepts it; with no matching policy the
default is deny. -/
def allowed (policies : List (Policy ρ)) (op : SqlOp) (db : Db) (uid : String)
    (row : ρ) : Bool :=
  (policies.filter (fun pol => pol.cmd = op)).any (fun pol => pol.pred db uid row)

/-- The result of `SELECT * FROM sales` for user `uid`: the rows the
`SELECT` policies let that user see. -/
def visibleSales (db : Db) (uid : String) : List SaleRow :=
  db.sales.filter (fun row => allowed salesSelectPolicies .select db uid row)

end Rls

namespace Audit

/-- The `details` column written by `log_audit_event`: `to_jsonb` of a row,
or the `jsonb_build_object('old', …, 'new', …)` pair. -/
inductive Details (ρ : Type) where
  | snapshot (row : ρ)
  | oldNew (old : ρ) (new : ρ)
deriving Repr, DecidableEq

/-- A row of `audit_logs` as written by `log_audit_event` (the remaining
columns of the table are filled by defaults). -/
structure LogRow (ρ : Type) where
  user_id : Option String
  action_type : String
  entity_type : String
  entity_id : String
  details : Details ρ
deriving Repr, DecidableEq

/-- A row-level operation on a table, as seen by a `FOR EACH ROW` trigger:
`TG_OP` together with the `NEW` and `OLD` rows it provides. -/
inductive TableOp (ρ : Type) where
  | insertRow (new : ρ)
  | updateRow (old : ρ) (new : ρ)
  | deleteRow (old : ρ)
deriving Repr, DecidableEq

/-- The function `log_audit_event()` of the second migration: the list of
`audit_logs` rows one firing of the trigger inserts.  `idOf` reads the
`id` column of a row (`NEW.id::text` / `OLD.id::text`) and `uid` is
`auth.uid()`. -/
def log_audit_event (idOf : ρ → String) (uid : Option String)
    (tableName : String) : TableOp ρ → List (LogRow ρ)
  | .insertRow new =>
      [{ user_id := uid, action_type := "CREATE", entity_type := tableName
         entity_id := idOf new, details := .snapshot new }]
  | .updateRow old new =>
      [{ user_id := uid, action_type := "UPDATE", entity_type := tableName
         entity_id := idOf new, details := .oldNew old new }]
  | .deleteRow old =>
      [{ user_id := uid, action_type := "DELETE", entity_type := tableName
         entity_id := idOf old, details := .snapshot old }]

/-- The audit triggers of the second migration are installed exactly on
`products` and `sales` (`products_audit_trigger`, `sales_audit_trigger`). -/
def hasAuditTrigger (tableName : String) : Bool :=
  tableName == "products" || tableName == "sales"

/-- Effect of one row-level write on a table on the `audit_logs` table:
on an audited table the `AFTER INSERT OR UPDATE OR DELETE ... FOR EACH ROW`
trigger appends what `log_audit_event` produces. -/
def auditAfterOp (idOf : ρ → String) (uid : Option String) (tableName : String)
    (log : List (LogRow ρ)) (op : TableOp ρ) : List (LogRow ρ) :=
  if hasAuditTrigger tableName then
    log ++ log_audit_event idOf uid tableName op
  else
    log

end Audit

namespace CompanySettings

/-- A row of the `company_settings` table. -/
structure Row where
  id : String
  company_name : String
  address : String
  email : String
  phone : String
  logo_url : Option String
  currency_symbol : String
deriving Repr, DecidableEq

/-- The policies on `company_settings` from the first migration: a `SELECT`
policy and an `UPDATE` policy, both unconditional; no `INSERT` and no
`DELETE` policy is ever created for this table. -/
def policies : List (Rls.Policy Row) :=
  [ { name := "Anyone can view company settings"
      cmd := .select
      pred := fun _ _ _ => true }
  , { name := "Authenticated users can update company settings"
      cmd := .update
      pred := fun _ _ _ => true } ]

/-- The single row the first migration inserts into the freshly created
table (`freshId` is the generated `uuid_generate_v4()` value). -/
def initialTable (freshId : String) : List Row :=
  [ { id := freshId
      company_name := "YAROTECH NETWORK LIMITED"
      address := "No. 122 Lukoro Plaza, Farm Center, Kano State"
      email := "info@yarotech.com.ng"
      phone := "+234 814 024 4774"
      logo_url := none
      currency_symbol := "₦" } ]

/-- A request an authenticated client can issue against `company_settings`
through the application's interface. -/
inductive Request where
  | select
  | insertRow (r : Row)
  | updateAll (f : Row → Row)
  | deleteAll

/-- Row-level-security semantics of a request: an `INSERT` goes through only
if an `INSERT` policy accepts it, an `UPDATE`/`DELETE` statement touches
only the rows its policies accept. -/
def applyRequest (db : Rls.Db) (uid : String) (rows : List Row) :
    Request → List Row
  | .select => rows
  | .insertRow r =>
      if Rls.allowed policies .insert db uid r then rows ++ [r] else rows
  | .updateAll f =>
      rows.map (fun r => if Rls.allowed policies .update db uid r then f r else r)
  | .deleteAll =>
      rows.filter (fun r => !(Rls.allowed policies .delete db uid r))

/-- The read performed by the report's `exportToPDF`:
`.select('*').limit(1).maybeSingle()`, i.e. the first row if any. -/
def readSettings (rows : List Row) : Option Row :=
  rows.head?

end CompanySettings

namespace Reports

open JsString

/-- The `Sale` interface of `ReportsPage.tsx`. -/
structure Sale where
  id : String
  customer_name : String
  issuer_name : String
  total_amount : Rat
  created_at : String
  status : String
deriving Repr, DecidableEq

/-- The four filter fields of the reports page; the empty string means the
filter is not set, matching JavaScript string falsiness. -/
structure Filters where
  fromDate : String
  toDate : String
  searchCustomer : String
  searchIssuer : String
deriving Repr, DecidableEq

/-- JavaScript `<=` between two `Date` values, where `none` models an
invalid date (`NaN` timestamp): any comparison with `NaN` is false. -/
def jsDateLe : Option Int → Option Int → Bool
  | some a, some b => a ≤ b
  | _, _ => false

/-- Function `applyFilters` of `ReportsPage.tsx`, parameterised by `toTime`, the
timestamp of `new Date(s)`, and `endOfDayTime`, the timestamp of
`new Date(s)` with `setHours(23, 59, 59, 999)` applied. -/
def applyFilters (toTime endOfDayTime : String → Option Int)
    (sales : List Sale) (f : Filters) : List Sale :=
  let l1 :=
    if f.fromDate ≠ "" then
      sales.filter (fun s => jsDateLe (toTime f.fromDate) (toTime s.created_at))
    else sales
  let l2 :=
    if f.toDate ≠ "" then
      l1.filter (fun s => jsDateLe (toTime s.created_at) (endOfDayTime f.toDate))
    else l1
  let l3 :=
    if f.searchCustomer ≠ "" then
      l2.filter (fun s => jsIncludes (jsToLower s.customer_name) (jsToLower f.searchCustomer))
    else l2
  if f.searchIssuer ≠ "" then
    l3.filter (fun s => jsIncludes (jsToLower s.issuer_name) (jsToLower f.searchIssuer))
  else l3

/-- Function `calculateTotal` of `ReportsPage.tsx`:
`filteredSales.reduce((sum, sale) => sum + Number(sale.total_amount), 0)`. -/
def reportsTotal (filteredSales : List Sale) : Rat :=
  filteredSales.foldl (fun sum s => sum + s.total_amount) 0

end Reports

namespace Invoice

open JsString

/-- A JavaScript number that may be `NaN`. -/
inductive JsNum where
  | nan
  | num (q : Rat)
deriving Repr, DecidableEq

/-- Predicate `isNaN(x)`. -/
def JsNum.isNaN : JsNum → Bool
  | .nan => true
  | .num _ => false

/-- Comparison `x <= 0` with JavaScript semantics: any comparison with `NaN` is
false. -/
def JsNum.leZero : JsNum → Bool
  | .nan => false
  | .num q => q ≤ 0

/-- The `SaleItem` interface of `invoiceGenerator.ts`. -/
structure ItemA where
  product_name : String
  quantity : Rat
  unit_price : Rat
  subtotal : Rat
deriving Repr, DecidableEq

/-- The `Sale` interface of `invoiceGenerator.ts`. -/
structure SaleA where
  id : String
  customer_name : String
  issuer_name : String
  total : JsNum
  sale_date : String
deriving Repr, DecidableEq

/-- The options of `invoiceGenerator.ts`'s `generateInvoicePDF` that affect
its result (`returnPdfBlob`, default false). -/
structure OptionsA where
  returnPdfBlob : Bool
deriving Repr, DecidableEq

/-- The value `generateInvoicePDF` of `invoiceGenerator.ts` returns: `null`,
a PDF blob, or the `jsPDF` document; a produced document is identified by
the invoice number it renders. -/
inductive ResultA where
  | nullResult
  | blobResult (invoiceNumber : String)
  | docResult (invoiceNumber : String)
deriving Repr, DecidableEq

/-- Expression `items?.length` coerced to a number: `undefined` and the empty list are
both falsy. -/
def optLength (items : Option (List ItemA)) : Nat :=
  match items with
  | none => 0
  | some l => l.length

/-- The invoice number `invoiceGenerator.ts` renders:
`sale.id.slice(0, 8).toUpperCase()`. -/
def invoiceNumberA (sale : SaleA) : String :=
  jsToUpper (jsSlice sale.id 0 8)

/-- Function `generateInvoicePDF` of `invoiceGenerator.ts`.  `parseDate` models
`new Date(…)` (`none` = invalid date) and `renderFails` models any
exception thrown while rendering after the input checks; every throw is
caught by the surrounding `try`/`catch`, which returns `null`. -/
def generateInvoicePDF_A (parseDate : String → Option Int) (renderFails : Bool)
    (sale : SaleA) (items : Option (List ItemA)) (opts : OptionsA) : ResultA :=
  if optLength items = 0 then .nullResult
  else if sale.total.isNaN || sale.total.leZero then .nullResult
  else
    match parseDate sale.sale_date with
    | none => .nullResult
    | some _ =>
        if renderFails then .nullResult
        else if opts.returnPdfBlob then .blobResult (invoiceNumberA sale)
        else .docResult (invoiceNumberA sale)

/-- The `SaleItem` interface of the second `generateInvoicePDF`
implementation. -/
structure ItemB where
  product_name : String
  quantity : Rat
  unit_price : Rat
  total_price : Rat
deriving Repr, DecidableEq

/-- The `Sale` interface of the second `generateInvoicePDF` implementation
(`items?: SaleItem[]`). -/
structure SaleB where
  id : String
  customer_name : String
  issuer_name : String
  total_amount : Rat
  created_at : String
  items : Option (List ItemB)
deriving Repr, DecidableEq

/-- The invoice number the second implementation renders:
`sale.id.substring(0, 8).toUpperCase()`. -/
def invoiceNumberB (sale : SaleB) : String :=
  jsToUpper (jsSubstring sale.id 0 8)

/-- The second `generateInvoicePDF` implementation: it throws
(`Except.error`) on an empty item list or an unparseable `created_at`, and
otherwise resolves to the rendered document, identified by its invoice
number. -/
def generateInvoicePDF_B (parseDate : String → Option Int)
    (sale : SaleB) : Except String String :=
  let items := sale.items.getD []
  if items.length = 0 then .error "No items provided for invoice."
  else
    match parseDate sale.created_at with
    | none => .error "Invalid sale date."
    | some _ => .ok (invoiceNumberB sale)

end Invoice

/-! ## Theorems -/

/-- Folding `+` over a mapped value equals the initial value plus the sum of
the mapped list. -/
theorem foldl_add_map {α : Type} (f : α → Rat) (l : List α) (a : Rat) :
    l.foldl (fun s x => s + f x) a = a + (l.map f).sum := by
  induction l generalizing a with
  | nil => simp
  | cons x xs ih => simp [List.foldl_cons, ih]; ring

/-- Function `calculateTotal` is the sum of the items' `total_price` fields. -/
theorem calculateTotal_eq_sum (items : List SalesForm.SaleItem) :
    SalesForm.calculateTotal items =
      (items.map SalesForm.SaleItem.total_price).sum := by
  simpa using foldl_add_map SalesForm.SaleItem.total_price items 0

/-- Each single form operation preserves the line-item invariant. -/
theorem applyOp_itemInv (products : List SalesForm.Product)
    (strToNum : String → Rat) (items : List SalesForm.SaleItem)
    (op : SalesForm.FormOp)
    (h : ∀ it ∈ items, SalesForm.itemInv it) :
    ∀ it ∈ SalesForm.applyOp products strToNum items op, SalesForm.itemInv it := by
  intro it hit
  cases op with
  | add =>
      cases products with
      | nil => exact h it hit
      | cons p ps =>
          simp only [SalesForm.applyOp, SalesForm.addItem, List.mem_append,
            List.mem_singleton] at hit
          rcases hit with hmem | heq
          · exact h it hmem
          · subst heq; simp [SalesForm.itemInv]
  | remove index =>
      exact h it ((List.eraseIdx_sublist items index).subset hit)
  | update index field value =>
      simp only [SalesForm.applyOp, SalesForm.updateItem] at hit
      cases hidx : items[index]? with
      | none => rw [hidx] at hit; exact h it hit
      | some item =>
          rw [hidx] at hit
          rcases List.mem_or_eq_of_mem_set hit with hmem | heq
          · exact h it hmem
          · subst heq
            have hitem : SalesForm.itemInv item := h item (List.getElem?_mem hidx)
            cases field with
            | product_id =>
                simp only [SalesForm.updateSaleItem]
                cases hfind : products.find? (fun p => SalesForm.idEqValue p.id value) with
                | none => exact hitem
                | some product => simp [SalesForm.itemInv]
            | quantity => simp [SalesForm.updateSaleItem, SalesForm.itemInv]
            | unit_price => simp [SalesForm.updateSaleItem, SalesForm.itemInv]
            | product_name => exact hitem
            | total_price => exact hitem

/-- Claim C4: starting from the empty item list, after any sequence of
`addItem`, `removeItem` and `updateItem` operations every item of the
resulting sales-form item list satisfies
`total_price = quantity * unit_price`. -/
theorem sales_form_ops_preserve_total_price_invariant
    (products : List SalesForm.Product) (strToNum : String → Rat)
    (ops : List SalesForm.FormOp) :
    ∀ item ∈ SalesForm.applyOps products strToNum [] ops,
      SalesForm.itemInv item := by
  have key : ∀ (ops : List SalesForm.FormOp) (items : List SalesForm.SaleItem),
      (∀ it ∈ items, SalesForm.itemInv it) →
      ∀ it ∈ SalesForm.applyOps products strToNum items ops,
        SalesForm.itemInv it := by
    intro ops
    induction ops with
    | nil => intro items h it hit; exact h it hit
    | cons op rest ih =>
        intro items h it hit
        simp only [SalesForm.applyOps, List.foldl_cons] at hit
        exact ih (SalesForm.applyOp products strToNum items op)
          (applyOp_itemInv products strToNum items op h) it hit
  intro item hmem
  exact key ops [] (by simp) item hmem

/-- Witness for C4: adding an item for a concrete product and changing its
quantity to 3 yields an item whose total is `3 * 5 = 15`. -/
theorem sales_form_ops_preserve_total_price_invariant_witness :
    SalesForm.itemInv { product_id := "p1", product_name := "Cable"
                        quantity := 3, unit_price := 5, total_price := 15 } :=
  sales_form_ops_preserve_total_price_invariant
    [{ id := "p1", name := "Cable", unit_price := 5 }] (fun _ => 0)
    [.add, .update 0 .quantity (.num 3)] _ (by
      simp [SalesForm.applyOps, SalesForm.applyOp, SalesForm.addItem,
        SalesForm.updateItem, SalesForm.updateSaleItem, SalesForm.jsNumber]
      norm_num)

/-- Claim C1: with a non-empty item list and a non-blank customer name, a
successful `handleSubmit` inserts one `sales` row whose `total_amount` is
the sum of `total_price` over the submitted items, and one `sale_items`
row per form item carrying that item's `product_id`, `product_name`,
`quantity`, `unit_price` and `total_price` unchanged. -/
theorem handleSubmit_inserts_sum_and_items (userId : Option String)
    (newSaleId : String) (form : SalesForm.FormState) (db : SalesForm.Db)
    (hname : JsString.jsTrim form.customerName ≠ "")
    (hitems : form.items ≠ []) :
    (SalesForm.handleSubmit userId newSaleId false false form db).db.sales =
      db.sales ++ [{ id := newSaleId
                     customer_name := form.customerName
                     issuer_id := userId
                     issuer_name := form.issuerName
                     total_amount := (form.items.map SalesForm.SaleItem.total_price).sum
                     status := "completed" }]
    ∧ (SalesForm.handleSubmit userId newSaleId false false form db).db.sale_items.length
        = db.sale_items.length + form.items.length
    ∧ ∀ i item, form.items[i]? = some item →
        (SalesForm.handleSubmit userId newSaleId false false form db).db.sale_items[db.sale_items.length + i]? =
          some { sale_id := newSaleId
                 product_id := item.product_id
                 product_name := item.product_name
                 quantity := item.quantity
                 unit_price := item.unit_price
                 total_price := item.total_price } := by
  have hlen : ¬ form.items.length = 0 := by
    simpa [List.length_eq_zero] using hitems
  refine ⟨?_, ?_, ?_⟩
  · simp [SalesForm.handleSubmit, hname, hlen, calculateTotal_eq_sum]
  · simp [SalesForm.handleSubmit, hname, hlen]
  · intro i item hi
    have hdb : (SalesForm.handleSubmit userId newSaleId false false form db).db.sale_items
        = db.sale_items ++ form.items.map (fun it =>
            ({ sale_id := newSaleId
               product_id := it.product_id
               product_name := it.product_name
               quantity := it.quantity
               unit_price := it.unit_price
               total_price := it.total_price } : SalesForm.SaleItemRow)) := by
      simp [SalesForm.handleSubmit, hname, hlen]
    rw [hdb, List.getElem?_append_right (by omega)]
    simp [List.getElem?_map, hi]

/-- Witness for C1: a concrete submission of one item with total 10 inserts
a sales row with `total_amount = 10`. -/
theorem handleSubmit_inserts_sum_and_items_witness :
    (SalesForm.handleSubmit (some "u1") "sale-1" false false
        { customerName := "Ada"
          items := [{ product_id := "p1", product_name := "Cable"
                      quantity := 2, unit_price := 5, total_price := 10 }]
          error := "", issuerName := "Obi" }
        { sales := [], sale_items := [] }).db.sales =
      [{ id := "sale-1", customer_name := "Ada", issuer_id := some "u1"
         issuer_name := "Obi", total_amount := 10, status := "completed" }] := by
  have h := handleSubmit_inserts_sum_and_items (some "u1") "sale-1"
      { customerName := "Ada"
        items := [{ product_id := "p1", product_name := "Cable"
                    quantity := 2, unit_price := 5, total_price := 10 }]
        error := "", issuerName := "Obi" }
      { sales := [], sale_items := [] } (by decide) (by decide)
  simpa using h.1

/-- Claim C9: when the `sales` insert succeeds but the `sale_items` insert
fails, `handleSubmit` sets the error message (which begins with
"Failed to create sale"), the inserted `sales` row remains, no `sale_items`
row for it exists, and the entered customer name and items are not
cleared. -/
theorem handleSubmit_item_failure_keeps_sale_row (userId : Option String)
    (newSaleId : String) (form : SalesForm.FormState) (db : SalesForm.Db)
    (hname : JsString.jsTrim form.customerName ≠ "")
    (hitems : form.items ≠ [])
    (hfresh : ∀ row ∈ db.sale_items, row.sale_id ≠ newSaleId) :
    (SalesForm.handleSubmit userId newSaleId false true form db).form.error =
        "Failed to create sale. Please try again."
    ∧ JsString.startsWithChars "Failed to create sale".data
        (SalesForm.handleSubmit userId newSaleId false true form db).form.error.data = true
    ∧ (SalesForm.handleSubmit userId newSaleId false true form db).db.sales =
        db.sales ++ [{ id := newSaleId
                       customer_name := form.customerName
                       issuer_id := userId
                       issuer_name := form.issuerName
                       total_amount := (form.items.map SalesForm.SaleItem.total_price).sum
                       status := "completed" }]
    ∧ (SalesForm.handleSubmit userId newSaleId false true form db).db.sale_items
        = db.sale_items
    ∧ (∀ row ∈ (SalesForm.handleSubmit userId newSaleId false true form db).db.sale_items,
         row.sale_id ≠ newSaleId)
    ∧ (SalesForm.handleSubmit userId newSaleId false true form db).form.customerName
        = form.customerName
    ∧ (SalesForm.handleSubmit userId newSaleId false true form db).form.items
        = form.items
    ∧ (SalesForm.handleSubmit userId newSaleId false true form db).created = none := by
  have hlen : ¬ form.items.length = 0 := by
    simpa [List.length_eq_zero] using hitems
  have hsi : (SalesForm.handleSubmit userId newSaleId false true form db).db.sale_items
      = db.sale_items := by
    simp [SalesForm.handleSubmit, hname, hlen]
  refine ⟨?_, ?_, ?_, hsi, ?_, ?_, ?_, ?_⟩
  · simp [SalesForm.handleSubmit, hname, hlen]
  · have herr : (SalesForm.handleSubmit userId newSaleId false true form db).form.error =
        "Failed to create sale. Please try again." := by
      simp [SalesForm.handleSubmit, hname, hlen]
    rw [herr]; decide
  · simp [SalesForm.handleSubmit, hname, hlen, calculateTotal_eq_sum]
  · rw [hsi]; exact hfresh
  · simp [SalesForm.handleSubmit, hname, hlen]
  · simp [SalesForm.handleSubmit, hname, hlen]
  · simp [SalesForm.handleSubmit, hname, hlen]

/-- Witness for C9: on a concrete failed submission the error message is
set, the orphan sales row is present and the item rows are untouched. -/
theorem handleSubmit_item_failure_keeps_sale_row_witness :
    (SalesForm.handleSubmit (some "u1") "sale-1" false true
        { customerName := "Ada"
          items := [{ product_id := "p1", product_name := "Cable"
                      quantity := 2, unit_price := 5, total_price := 10 }]
          error := "", issuerName := "Obi" }
        { sales := [], sale_items := [] }).form.error =
      "Failed to create sale. Please try again."
    ∧ (SalesForm.handleSubmit (some "u1") "sale-1" false true
        { customerName := "Ada"
          items := [{ product_id := "p1", product_name := "Cable"
                      quantity := 2, unit_price := 5, total_price := 10 }]
          error := "", issuerName := "Obi" }
        { sales := [], sale_items := [] }).db.sale_items = [] := by
  have h := handleSubmit_item_failure_keeps_sale_row (some "u1") "sale-1"
      { customerName := "Ada"
        items := [{ product_id := "p1", product_name := "Cable"
                    quantity := 2, unit_price := 5, total_price := 10 }]
        error := "", issuerName := "Obi" }
      { sales := [], sale_items := [] } (by decide) (by decide) (by simp)
  exact ⟨h.1, h.2.2.2.1⟩

/-- The admin/staff `EXISTS` subquery succeeds exactly when a profile row
with the given id and role exists. -/
theorem existsProfileWithRole_iff (db : Rls.Db) (uid r : String) :
    Rls.existsProfileWithRole db uid r = true ↔
      ∃ p ∈ db.profiles, p.id = uid ∧ p.role = r := by
  simp [Rls.existsProfileWithRole, List.any_eq_true]

/-- Claim C2: under the migrated policies, each of `INSERT`, `UPDATE` and
`DELETE` on `products` is allowed exactly for users with an `'admin'`
profile; a `SELECT` on `sales` by a `'staff'` user returns exactly the
sales whose `issuer_id` is that user, and an `'admin'` user sees every
sale. -/
theorem rls_products_admin_only_and_sales_visibility
    (db : Rls.Db) (uid : String) :
    (∀ op ∈ [Rls.SqlOp.insert, Rls.SqlOp.update, Rls.SqlOp.delete],
      ∀ row : Rls.ProductRow,
        (Rls.allowed Rls.productsPolicies op db uid row = true ↔
          ∃ p ∈ db.profiles, p.id = uid ∧ p.role = "admin"))
    ∧ ((∃ p ∈ db.profiles, p.id = uid ∧ p.role = "staff") →
        (∀ p ∈ db.profiles, p.id = uid → p.role = "staff") →
        Rls.visibleSales db uid
          = db.sales.filter (fun r => r.issuer_id == some uid))
    ∧ ((∃ p ∈ db.profiles, p.id = uid ∧ p.role = "admin") →
        Rls.visibleSales db uid = db.sales) := by
  refine ⟨?_, ?_, ?_⟩
  · intro op hop row
    rw [← existsProfileWithRole_iff]
    fin_cases hop <;>
      simp [Rls.allowed, Rls.productsPolicies, List.filter_cons]
  · intro hstaff honly
    have hs : Rls.existsProfileWithRole db uid "staff" = true := by
      rw [existsProfileWithRole_iff]; exact hstaff
    have ha : Rls.existsProfileWithRole db uid "admin" = false := by
      rw [← Bool.not_eq_true, existsProfileWithRole_iff]
      rintro ⟨p, hp, hpid, hrole⟩
      have := honly p hp hpid
      rw [this] at hrole
      exact absurd hrole (by decide)
    unfold Rls.visibleSales
    apply List.filter_congr
    intro row hrow
    simp [Rls.allowed, Rls.salesSelectPolicies, ha, hs]
  · intro hadmin
    have ha : Rls.existsProfileWithRole db uid "admin" = true := by
      rw [existsProfileWithRole_iff]; exact hadmin
    unfold Rls.visibleSales
    apply List.filter_eq_self.mpr
    intro row hrow
    simp [Rls.allowed, Rls.salesSelectPolicies, ha]

/-- Witness for C2: in a concrete database with one staff and one admin
user and one sale of each, the staff user sees only their own sale, the
admin sees both. -/
theorem rls_products_admin_only_and_sales_visibility_witness :
    Rls.visibleSales
        { profiles := [{ id := "u1", role := "staff" }, { id := "u2", role := "admin" }]
          sales := [{ id := "s1", issuer_id := some "u1", customer_name := "Ada"
                      issuer_name := "Obi", total_amount := 10 },
                    { id := "s2", issuer_id := some "u2", customer_name := "Bea"
                      issuer_name := "Eve", total_amount := 20 }] } "u1" =
      [{ id := "s1", issuer_id := some "u1", customer_name := "Ada"
         issuer_name := "Obi", total_amount := 10 }]
    ∧ Rls.visibleSales
        { profiles := [{ id := "u1", role := "staff" }, { id := "u2", role := "admin" }]
          sales := [{ id := "s1", issuer_id := some "u1", customer_name := "Ada"
                      issuer_name := "Obi", total_amount := 10 },
                    { id := "s2", issuer_id := some "u2", customer_name := "Bea"
                      issuer_name := "Eve", total_amount := 20 }] } "u2" =
      [{ id := "s1", issuer_id := some "u1", customer_name := "Ada"
         issuer_name := "Obi", total_amount := 10 },
       { id := "s2", issuer_id := some "u2", customer_name := "Bea"
         issuer_name := "Eve", total_amount := 20 }] := by
  constructor
  · have h := (rls_products_admin_only_and_sales_visibility
        { profiles := [{ id := "u1", role := "staff" }, { id := "u2", role := "admin" }]
          sales := [{ id := "s1", issuer_id := some "u1", customer_name := "Ada"
                      issuer_name := "Obi", total_amount := 10 },
                    { id := "s2", issuer_id := some "u2", customer_name := "Bea"
                      issuer_name := "Eve", total_amount := 20 }] } "u1").2.1
      (by exact ⟨{ id := "u1", role := "staff" }, by simp, rfl, rfl⟩)
      (by intro p hp hpid
          rcases List.mem_cons.mp hp with h1 | h1
          · rw [h1]
          · simp at h1
            rw [h1] at hpid
            exact absurd hpid (by decide))
    rw [h]; decide
  · have h := (rls_products_admin_only_and_sales_visibility
        { profiles := [{ id := "u1", role := "staff" }, { id := "u2", role := "admin" }]
          sales := [{ id := "s1", issuer_id := some "u1", customer_name := "Ada"
                      issuer_name := "Obi", total_amount := 10 },
                    { id := "s2", issuer_id := some "u2", customer_name := "Bea"
                      issuer_name := "Eve", total_amount := 20 }] } "u2").2.2
      (by exact ⟨{ id := "u2", role := "admin" }, by simp, rfl, rfl⟩)
    rw [h]

/-- Claim C6: under the `audit_logs` policies, `SELECT` is allowed exactly
for users with an `'admin'` profile, `INSERT` is always allowed, and no
`UPDATE` or `DELETE` is ever allowed: written log entries are immutable
through the API. -/
theorem audit_logs_admin_read_and_immutable (db : Rls.Db) (uid : String)
    (row : Rls.AuditRow) :
    (Rls.allowed Rls.auditLogsPolicies .select db uid row = true ↔
      ∃ p ∈ db.profiles, p.id = uid ∧ p.role = "admin")
    ∧ Rls.allowed Rls.auditLogsPolicies .insert db uid row = true
    ∧ Rls.allowed Rls.auditLogsPolicies .update db uid row = false
    ∧ Rls.allowed Rls.auditLogsPolicies .delete db uid row = false := by
  refine ⟨?_, ?_, ?_, ?_⟩
  · rw [← existsProfileWithRole_iff]
    simp [Rls.allowed, Rls.auditLogsPolicies, List.filter_cons]
  · simp [Rls.allowed, Rls.auditLogsPolicies, List.filter_cons]
  · simp [Rls.allowed, Rls.auditLogsPolicies, List.filter_cons]
  · simp [Rls.allowed, Rls.auditLogsPolicies, List.filter_cons]

/-- Claim C3: for each row-level `INSERT`/`UPDATE`/`DELETE` on an audited
table (`products` or `sales`), the trigger appends exactly one
`audit_logs` row with action `CREATE`/`UPDATE`/`DELETE`, the table name,
the affected row's id, and the corresponding snapshot details. -/
theorem audit_trigger_logs_each_row_change {ρ : Type} (idOf : ρ → String)
    (uid : Option String) (tableName : String)
    (log : List (Audit.LogRow ρ))
    (htbl : tableName = "products" ∨ tableName = "sales") :
    (∀ new, Audit.auditAfterOp idOf uid tableName log (.insertRow new) =
        log ++ [{ user_id := uid, action_type := "CREATE", entity_type := tableName
                  entity_id := idOf new, details := .snapshot new }])
    ∧ (∀ old new, Audit.auditAfterOp idOf uid tableName log (.updateRow old new) =
        log ++ [{ user_id := uid, action_type := "UPDATE", entity_type := tableName
                  entity_id := idOf new, details := .oldNew old new }])
    ∧ (∀ old, Audit.auditAfterOp idOf uid tableName log (.deleteRow old) =
        log ++ [{ user_id := uid, action_type := "DELETE", entity_type := tableName
                  entity_id := idOf old, details := .snapshot old }])
    ∧ (∀ op, (Audit.auditAfterOp idOf uid tableName log op).length = log.length + 1) := by
  have ht : Audit.hasAuditTrigger tableName = true := by
    rcases htbl with h | h <;> simp [Audit.hasAuditTrigger, h]
  refine ⟨?_, ?_, ?_, ?_⟩
  · intro new; simp [Audit.auditAfterOp, ht, Audit.log_audit_event]
  · intro old new; simp [Audit.auditAfterOp, ht, Audit.log_audit_event]
  · intro old; simp [Audit.auditAfterOp, ht, Audit.log_audit_event]
  · intro op; cases op <;> simp [Audit.auditAfterOp, ht, Audit.log_audit_event]

/-- Witness for C3: inserting a concrete product row writes exactly the
expected `CREATE` audit entry. -/
theorem audit_trigger_logs_each_row_change_witness :
    Audit.auditAfterOp Rls.ProductRow.id (some "u1") "products" []
        (.insertRow { id := "p1" }) =
      [{ user_id := some "u1", action_type := "CREATE", entity_type := "products"
         entity_id := "p1", details := .snapshot { id := "p1" } }] := by
  simpa using
    (audit_trigger_logs_each_row_change Rls.ProductRow.id (some "u1") "products" []
      (Or.inl rfl)).1 { id := "p1" }

/-- Claim C8: the first migration leaves exactly one `company_settings` row,
and no sequence of requests available through the application's interface
(no `INSERT` or `DELETE` policy exists) changes the row count, so a reader
using `.limit(1).maybeSingle()` always finds the single row. -/
theorem company_settings_single_row (freshId : String) (db : Rls.Db)
    (uid : String) (reqs : List CompanySettings.Request) :
    (CompanySettings.initialTable freshId).length = 1
    ∧ (reqs.foldl (CompanySettings.applyRequest db uid)
        (CompanySettings.initialTable freshId)).length = 1
    ∧ ∃ r, CompanySettings.readSettings
        (reqs.foldl (CompanySettings.applyRequest db uid)
          (CompanySettings.initialTable freshId)) = some r := by
  have key : ∀ (reqs : List CompanySettings.Request) (rows : List CompanySettings.Row),
      (reqs.foldl (CompanySettings.applyRequest db uid) rows).length = rows.length := by
    intro reqs
    induction reqs with
    | nil => intro rows; rfl
    | cons req rest ih =>
        intro rows
        rw [List.foldl_cons, ih]
        cases req with
        | select => rfl
        | insertRow r =>
            simp [CompanySettings.applyRequest, Rls.allowed,
              CompanySettings.policies, List.filter_cons]
        | updateAll f => simp [CompanySettings.applyRequest]
        | deleteAll =>
            simp [CompanySettings.applyRequest, Rls.allowed,
              CompanySettings.policies, List.filter_cons]
  have hlen : (reqs.foldl (CompanySettings.applyRequest db uid)
      (CompanySettings.initialTable freshId)).length = 1 := by
    rw [key]; rfl
  refine ⟨rfl, hlen, ?_⟩
  cases h : reqs.foldl (CompanySettings.applyRequest db uid)
      (CompanySettings.initialTable freshId) with
  | nil => rw [h] at hlen; simp at hlen
  | cons r rest => exact ⟨r, by simp [CompanySettings.readSettings, h]⟩

/-- Claim C5: a sale is in `applyFilters`'s output iff it is in the loaded
list and passes every filter that is set, and the reported total is the
sum of `total_amount` over exactly the filtered sales. -/
theorem reports_applyFilters_characterization
    (toTime endOfDayTime : String → Option Int)
    (sales : List Reports.Sale) (f : Reports.Filters) :
    (∀ s, s ∈ Reports.applyFilters toTime endOfDayTime sales f ↔
      (s ∈ sales
        ∧ (f.fromDate ≠ "" →
            Reports.jsDateLe (toTime f.fromDate) (toTime s.created_at) = true)
        ∧ (f.toDate ≠ "" →
            Reports.jsDateLe (toTime s.created_at) (endOfDayTime f.toDate) = true)
        ∧ (f.searchCustomer ≠ "" →
            JsString.jsIncludes (JsString.jsToLower s.customer_name)
              (JsString.jsToLower f.searchCustomer) = true)
        ∧ (f.searchIssuer ≠ "" →
            JsString.jsIncludes (JsString.jsToLower s.issuer_name)
              (JsString.jsToLower f.searchIssuer) = true)))
    ∧ Reports.reportsTotal (Reports.applyFilters toTime endOfDayTime sales f)
        = ((Reports.applyFilters toTime endOfDayTime sales f).map
            Reports.Sale.total_amount).sum := by
  constructor
  · intro s
    by_cases h1 : f.fromDate = "" <;> by_cases h2 : f.toDate = "" <;>
      by_cases h3 : f.searchCustomer = "" <;> by_cases h4 : f.searchIssuer = "" <;>
        simp [Reports.applyFilters, h1, h2, h3, h4, List.mem_filter] <;> tauto
  · simpa using foldl_add_map Reports.Sale.total_amount
      (Reports.applyFilters toTime endOfDayTime sales f) 0

/-- Witness for C5: with a customer filter set to "ada", the concrete sale
with customer "Adaeze" passes the filter. -/
theorem reports_applyFilters_characterization_witness :
    ({ id := "s1", customer_name := "Adaeze", issuer_name := "Obi"
       total_amount := 10, created_at := "2025-10-14", status := "completed" }
      : Reports.Sale) ∈
      Reports.applyFilters (fun _ => some 0) (fun _ => some 0)
        [{ id := "s1", customer_name := "Adaeze", issuer_name := "Obi"
           total_amount := 10, created_at := "2025-10-14", status := "completed" }]
        { fromDate := "", toDate := "", searchCustomer := "ada", searchIssuer := "" } := by
  exact ((reports_applyFilters_characterization (fun _ => some 0) (fun _ => some 0)
      [{ id := "s1", customer_name := "Adaeze", issuer_name := "Obi"
         total_amount := 10, created_at := "2025-10-14", status := "completed" }]
      { fromDate := "", toDate := "", searchCustomer := "ada", searchIssuer := "" }).1
    _).mpr ⟨by simp, by simp, by simp, fun _ => by decide, by simp⟩

/-- Taking `min n len` elements is the same as taking `n`. -/
theorem take_min_length (l : List Char) (n : Nat) :
    l.take (min n l.length) = l.take n := by
  rcases Nat.le_total n l.length with h | h
  · rw [Nat.min_eq_left h]
  · rw [Nat.min_eq_right h, List.take_length, List.take_of_length_le h]

/-- Operations `slice(0, n)` and `substring(0, n)` agree: both take the first `n`
characters. -/
theorem jsSlice_eq_jsSubstring_of_zero (s : String) (n : Nat) :
    JsString.jsSlice s 0 n = JsString.jsSubstring s 0 n := by
  simp [JsString.jsSlice, JsString.jsSubstring]

/-- Operation `slice(0, n)` takes the first `n` characters. -/
theorem jsSlice_zero_eq_take (s : String) (n : Nat) :
    JsString.jsSlice s 0 n = ⟨s.data.take n⟩ :=
  congrArg String.mk (by
    show (s.data.take (min n s.data.length)).drop (min 0 s.data.length)
      = s.data.take n
    rw [Nat.zero_min, List.drop_zero, take_min_length])

/-- Claim C7: the two `generateInvoicePDF` implementations agree on the
invoice identity: both render the first 8 characters of the sale id
upper-cased, and both reject a sale whose item list is empty (or missing)
or whose sale date does not parse. -/
theorem invoice_implementations_agree (parseDate : String → Option Int)
    (renderFails : Bool) (saleA : Invoice.SaleA)
    (itemsA : Option (List Invoice.ItemA)) (opts : Invoice.OptionsA)
    (saleB : Invoice.SaleB) (hid : saleA.id = saleB.id) :
    Invoice.invoiceNumberA saleA = Invoice.invoiceNumberB saleB
    ∧ Invoice.invoiceNumberA saleA = JsString.jsToUpper ⟨saleA.id.data.take 8⟩
    ∧ (Invoice.optLength itemsA = 0 →
        Invoice.generateInvoicePDF_A parseDate renderFails saleA itemsA opts
          = .nullResult)
    ∧ (parseDate saleA.sale_date = none →
        Invoice.generateInvoicePDF_A parseDate renderFails saleA itemsA opts
          = .nullResult)
    ∧ (saleB.items.getD [] = [] →
        Invoice.generateInvoicePDF_B parseDate saleB
          = .error "No items provided for invoice.")
    ∧ (saleB.items.getD [] ≠ [] → parseDate saleB.created_at = none →
        Invoice.generateInvoicePDF_B parseDate saleB
          = .error "Invalid sale date.") := by
  refine ⟨?_, ?_, ?_, ?_, ?_, ?_⟩
  · unfold Invoice.invoiceNumberA Invoice.invoiceNumberB
    rw [hid, jsSlice_eq_jsSubstring_of_zero]
  · unfold Invoice.invoiceNumberA
    rw [jsSlice_zero_eq_take]
  · intro h
    simp [Invoice.generateInvoicePDF_A, h]
  · intro h
    unfold Invoice.generateInvoicePDF_A
    rw [h]
    split <;> simp
  · intro h
    simp [Invoice.generateInvoicePDF_B, h]
  · intro hne h
    have hlen : ¬ (saleB.items.getD []).length = 0 := by
      simpa [List.length_eq_zero] using hne
    simp [Invoice.generateInvoicePDF_B, hlen, h]

/-- Witness for C7: both implementations print "ABCDEF12" for a sale whose
id starts with "abcdef1234", and both reject an empty item list. -/
theorem invoice_implementations_agree_witness :
    Invoice.invoiceNumberA
        { id := "abcdef1234", customer_name := "Ada", issuer_name := "Obi"
          total := .num 10, sale_date := "2025-10-14" }
      = Invoice.invoiceNumberB
        { id := "abcdef1234", customer_name := "Ada", issuer_name := "Obi"
          total_amount := 10, created_at := "2025-10-14", items := some [] }
    ∧ Invoice.generateInvoicePDF_A (fun _ => some 0) false
        { id := "abcdef1234", customer_name := "Ada", issuer_name := "Obi"
          total := .num 10, sale_date := "2025-10-14" }
        (some []) { returnPdfBlob := false } = .nullResult
    ∧ Invoice.generateInvoicePDF_B (fun _ => some 0)
        { id := "abcdef1234", customer_name := "Ada", issuer_name := "Obi"
          total_amount := 10, created_at := "2025-10-14", items := some [] }
        = .error "No items provided for invoice." := by
  have h := invoice_implementations_agree (fun _ => some 0) false
      { id := "abcdef1234", customer_name := "Ada", issuer_name := "Obi"
        total := .num 10, sale_date := "2025-10-14" }
      (some []) { returnPdfBlob := false }
      { id := "abcdef1234", customer_name := "Ada", issuer_name := "Obi"
        total_amount := 10, created_at := "2025-10-14", items := some [] }
      rfl
  exact ⟨h.1, h.2.2.1 (by decide), h.2.2.2.2.1 (by decide)⟩

/-- Claim C10: `generateInvoicePDF` of `invoiceGenerator.ts` returns `null`
exactly when the item list is empty or missing, the total is `NaN` or not
strictly positive, the sale date does not parse, or rendering throws; in
every remaining case it returns a blob when `returnPdfBlob` is set and the
document otherwise. -/
theorem invoice_generator_result_characterization
    (parseDate : String → Option Int) (renderFails : Bool)
    (sale : Invoice.SaleA) (items : Option (List Invoice.ItemA))
    (opts : Invoice.OptionsA) :
    (Invoice.generateInvoicePDF_A parseDate renderFails sale items opts
        = .nullResult ↔
      (Invoice.optLength items = 0 ∨ sale.total.isNaN = true
        ∨ sale.total.leZero = true ∨ parseDate sale.sale_date = none
        ∨ renderFails = true))
    ∧ (Invoice.optLength items ≠ 0 → sale.total.isNaN = false →
        sale.total.leZero = false → parseDate sale.sale_date ≠ none →
        renderFails = false →
        Invoice.generateInvoicePDF_A parseDate renderFails sale items opts =
          (if opts.returnPdfBlob then .blobResult (Invoice.invoiceNumberA sale)
           else .docResult (Invoice.invoiceNumberA sale))) := by
  constructor
  · by_cases h1 : Invoice.optLength items = 0
    · simp [Invoice.generateInvoicePDF_A, h1]
    · cases hN : sale.total.isNaN with
      | true => simp [Invoice.generateInvoicePDF_A, h1, hN]
      | false =>
        cases hZ : sale.total.leZero with
        | true => simp [Invoice.generateInvoicePDF_A, h1, hN, hZ]
        | false =>
          cases hp : parseDate sale.sale_date with
          | none => simp [Invoice.generateInvoicePDF_A, h1, hN, hZ, hp]
          | some t =>
              cases renderFails with
              | true => simp [Invoice.generateInvoicePDF_A, h1, hN, hZ, hp]
              | false =>
                  by_cases hb : opts.returnPdfBlob <;>
                    simp [Invoice.generateInvoicePDF_A, h1, hN, hZ, hp, hb]
  · intro h1 h2 h3 h4 h5
    have h2b : (sale.total.isNaN || sale.total.leZero) = false := by
      simp [h2, h3]
    cases hp : parseDate sale.sale_date with
    | none => exact absurd hp h4
    | some t =>
        subst h5
        simp [Invoice.generateInvoicePDF_A, h1, h2b, hp]

/-- Witness for C10: a concrete valid sale with `returnPdfBlob` set yields
the blob result. -/
theorem invoice_generator_result_characterization_witness :
    Invoice.generateInvoicePDF_A (fun _ => some 0) false
        { id := "abcdef1234", customer_name := "Ada", issuer_name := "Obi"
          total := .num 10, sale_date := "2025-10-14" }
        (some [{ product_name := "Cable", quantity := 1
                 unit_price := 10, subtotal := 10 }])
        { returnPdfBlob := true }
      = .blobResult (Invoice.invoiceNumberA
          { id := "abcdef1234", customer_name := "Ada", issuer_name := "Obi"
            total := .num 10, sale_date := "2025-10-14" }) := by
  have h := (invoice_generator_result_characterization (fun _ => some 0) false
      { id := "abcdef1234", customer_name := "Ada", issuer_name := "Obi"
        total := .num 10, sale_date := "2025-10-14" }
      (some [{ product_name := "Cable", quantity := 1
               unit_price := 10, subtotal := 10 }])
      { returnPdfBlob := true }).2
    (by decide) (by decide) (by decide) (by decide) rfl
  simpa using h
